import Mathlib

/-!
Verification development for the smart-cctv-ai repository.

The repository ships the React frontend (Settings.js, Dashboard, IncidentDetails.js,
WebSocketContext.js, FeedManagement), the database initialization script
(tables incidents, notification_logs, system_config, cctv_feeds) and the README.
The backend dispatch core (Threshold Evaluator, Notification Dispatcher,
Subscription Registry, Event Broadcaster, Channel Adapters) is not part of the
source tree; where a definition embeds that missing core it is modelled from the
spec, and its doc comment says so.  Everything else is translated from the
source files: the configuration shape and the slider attributes come from
Settings.js, the data records from the database schema, the event names from
WebSocketContext.js and Dashboard.
-/

namespace CctvMonitor

/-- Notification channels, from the `notifications` object of Settings.js and
the spec's closed set {email, webhook, sms}. -/
inductive Channel
  | email
  | webhook
  | sms
deriving DecidableEq, Repr

/-- Status of a notification attempt, from the `notification_logs.status`
column (default `pending`) and the spec lifecycle pending → sent | failed. -/
inductive AttemptStatus
  | pending
  | sent
  | failed
deriving DecidableEq, Repr

/-- Incident record, from the `incidents` table of the database schema.
Confidence is a number in [0,1] (CHECK constraint), embedded as a rational. -/
structure Incident where
  id : Nat
  incident_type : String
  sub_type : Option String
  severity : String
  confidence : ℚ
  feed_id : Nat
  acknowledged : Bool
  reported_to_authorities : Bool
  reported_at : Option Nat
deriving DecidableEq, Repr

/-- Per-category detection thresholds, from the `detection` section of the
Settings.js state (traffic_threshold, crime_threshold, emergency_threshold,
civic_threshold). -/
structure DetectionConfig where
  traffic_threshold : ℚ
  crime_threshold : ℚ
  emergency_threshold : ℚ
  civic_threshold : ℚ
deriving DecidableEq, Repr

/-- Channel enable flags, from the `notifications` section of Settings.js. -/
structure NotificationFlags where
  email : Bool
  sms : Bool
  webhook : Bool
deriving DecidableEq, Repr

/-- Email channel settings, from the `email` section of Settings.js.
Modelled from the spec: Settings.js holds only SMTP credentials; the spec
(§4.2) says email may have multiple recipients, and §9 says an absent
sub-field means "unusable, not a crash", so every sub-field is optional and
the recipient list, absent from the source tree, is modelled as a field. -/
structure EmailConfig where
  smtp_server : Option String
  smtp_port : Option Nat
  username : Option String
  password : Option String
  from_email : Option String
  recipients : List String
deriving DecidableEq, Repr

/-- Webhook authority URLs, from the `webhooks` section of Settings.js
(police, fire department, traffic authority, municipal).  Optional per the
spec's absence-is-unusable rule. -/
structure WebhookConfig where
  police_url : Option String
  fire_department_url : Option String
  traffic_authority_url : Option String
  municipal_url : Option String
deriving DecidableEq, Repr

/-- SMS settings, from the `sms` section of Settings.js; emergency_contacts is
a comma-separated string of phone numbers. -/
structure SmsConfig where
  api_key : Option String
  api_url : Option String
  emergency_contacts : Option String
deriving DecidableEq, Repr

/-- One configuration snapshot, the shape fetched from /api/settings/ and held
in the Settings.js component state.  The channel sections are optional per the
spec's "absence of a sub-field means unusable, not a crash". -/
structure SystemConfig where
  notifications : NotificationFlags
  detection : DetectionConfig
  email : Option EmailConfig
  webhooks : Option WebhookConfig
  sms : Option SmsConfig
deriving DecidableEq, Repr

/-- Threshold lookup for an incident category.
Modelled from the spec: the Threshold Evaluator is not in the source tree; the
spec says it "looks up the category's threshold in config.detection" over the
closed category set {traffic_violation, crime, civic_issue, emergency} (the
category names are those of Dashboard's getIncidentIcon and the sample rows of
the incidents table) and is partial on anything else. -/
def thresholdFor (d : DetectionConfig) (category : String) : Option ℚ :=
  if category = "traffic_violation" then some d.traffic_threshold
  else if category = "crime" then some d.crime_threshold
  else if category = "emergency" then some d.emergency_threshold
  else if category = "civic_issue" then some d.civic_threshold
  else none

/-- Splits a comma-separated contact string into individual non-empty
contacts, following the Settings.js hint "Separate multiple contacts with
commas". -/
def splitContacts (s : String) : List String :=
  (s.splitOn ",").filter (fun t => t != "")

/-- All configured webhook authority targets: the non-empty URLs among the
four authority fields of the `webhooks` section of Settings.js. -/
def webhookTargets (w : WebhookConfig) : List String :=
  ([w.police_url, w.fire_department_url, w.traffic_authority_url,
    w.municipal_url].filterMap id).filter (fun u => u != "")

/-- Usable destinations of a channel under one configuration snapshot.
Modelled from the spec: the Evaluator is not in the source tree; the spec says
a channel needs "at least one usable recipient/target configured" and that an
absent sub-field means the channel is unusable.  Destination shapes follow
Settings.js: webhook targets are the authority URLs, SMS recipients come from
the comma-separated emergency_contacts, email recipients are the (modelled)
recipient list. -/
def recipientsFor (cfg : SystemConfig) (c : Channel) : List String :=
  match c with
  | Channel.email =>
    match cfg.email with
    | none => []
    | some e => e.recipients.filter (fun r => r != "")
  | Channel.webhook =>
    match cfg.webhooks with
    | none => []
    | some w => webhookTargets w
  | Channel.sms =>
    match cfg.sms with
    | none => []
    | some m =>
      match m.emergency_contacts with
      | none => []
      | some cs => splitContacts cs

/-- The enabled flag of a channel, from the `notifications` section of
Settings.js. -/
def channelFlag (cfg : SystemConfig) (c : Channel) : Bool :=
  match c with
  | Channel.email => cfg.notifications.email
  | Channel.webhook => cfg.notifications.webhook
  | Channel.sms => cfg.notifications.sms

/-- Channels selected for dispatch.
Modelled from the spec: the Evaluator is not in the source tree; the spec says
enabledChannels is "the subset of {email, webhook, sms} whose
config.notifications flag is true AND which has at least one usable
recipient/target configured; channels with no destination are silently
excluded". -/
def enabledChannels (cfg : SystemConfig) : List Channel :=
  [Channel.email, Channel.webhook, Channel.sms].filter
    (fun c => channelFlag cfg c && decide (recipientsFor cfg c ≠ []))

/-- Result of the Threshold Evaluator, from the spec contract
shouldNotify(incident, config) -> {qualifies, enabledChannels}. -/
structure EvalResult where
  qualifies : Bool
  enabledChannels : List Channel
deriving DecidableEq, Repr

/-- The Threshold Evaluator.
Modelled from the spec: the Evaluator is not in the source tree; the spec says
"qualifies = incident.confidence >= threshold[category]" and that it "fails
closed (does not notify) if the category is unrecognized". -/
def shouldNotify (incident : Incident) (cfg : SystemConfig) : EvalResult :=
  { qualifies :=
      match thresholdFor cfg.detection incident.incident_type with
      | some t => decide (t ≤ incident.confidence)
      | none => false
    enabledChannels := enabledChannels cfg }

/-- Outcome of one Channel Adapter send call, from the spec error taxonomy:
success, a transient delivery error (network/timeout/rate-limit, retryable) or
a permanent delivery error (bad recipient, auth failure, 4xx — not retried). -/
inductive SendOutcome
  | ok
  | transient
  | permanent
deriving DecidableEq, Repr

/-- Retry budget beyond the first try.
Modelled from the spec: the Dispatcher is not in the source tree; the spec
says "maximum 3 additional attempts". -/
def maxAdditionalAttempts : Nat := 3

/-- Backoff delay in seconds before the k-th retry.
Modelled from the spec: "exponential backoff (base 2s, cap 60s)". -/
def retryDelay (k : Nat) : Nat := min (2 ^ k) 60

/-- Final state of one notification attempt after its retry loop settles:
its terminal status, how many sends were made (notification_logs keeps one
escalating record with an attemptCount), and the backoff delays waited. -/
structure AttemptResult where
  status : AttemptStatus
  attemptCount : Nat
  delays : List Nat
deriving DecidableEq, Repr

/-- The retry loop of the Dispatcher for one attempt record.
Modelled from the spec: the Dispatcher is not in the source tree; the spec
says "on failure: increments attemptCount; retries with exponential backoff
... while the error is classified as transient; on a non-transient error
marks the attempt failed immediately, no retry".  The oracle gives the
adapter outcome of each successive send (index 0 is the first try); fuel is
the remaining additional-attempt budget. -/
def runRetry (oracle : Nat → SendOutcome) : Nat → Nat → List Nat → AttemptResult
  | 0, tryIdx, delays =>
    match oracle tryIdx with
    | SendOutcome.ok => ⟨AttemptStatus.sent, tryIdx + 1, delays⟩
    | SendOutcome.permanent => ⟨AttemptStatus.failed, tryIdx + 1, delays⟩
    | SendOutcome.transient => ⟨AttemptStatus.failed, tryIdx + 1, delays⟩
  | fuel + 1, tryIdx, delays =>
    match oracle tryIdx with
    | SendOutcome.ok => ⟨AttemptStatus.sent, tryIdx + 1, delays⟩
    | SendOutcome.permanent => ⟨AttemptStatus.failed, tryIdx + 1, delays⟩
    | SendOutcome.transient =>
      runRetry oracle fuel (tryIdx + 1) (delays ++ [retryDelay (tryIdx + 1)])

/-- One complete attempt: first try plus at most maxAdditionalAttempts
retries. -/
def runAttempt (oracle : Nat → SendOutcome) : AttemptResult :=
  runRetry oracle maxAdditionalAttempts 0 []

/-- One row of the notification_logs audit table (incident_id,
notification_type, status, and an attempt counter for the escalating retry
record). -/
structure Attempt where
  incident_id : Nat
  channel : Channel
  status : AttemptStatus
  attemptCount : Nat
deriving DecidableEq, Repr

/-- The audit key of an attempt record: its (incident, channel) pair. -/
def Attempt.key (a : Attempt) : Nat × Channel := (a.incident_id, a.channel)

/-- A freshly created pending attempt record, as inserted when the Evaluator
approves a channel (notification_logs.status defaults to pending). -/
def mkPending (inc : Nat) (c : Channel) : Attempt :=
  ⟨inc, c, AttemptStatus.pending, 0⟩

/-- Dispatcher-visible shared state: the append-only notification_logs audit
list. -/
structure DState where
  attempts : List Attempt
deriving DecidableEq, Repr

/-- The initial state: an empty audit log. -/
def initState : DState := ⟨[]⟩

/-- Whether any attempt record (sent, failed or in-flight) exists for an
incident. -/
def hasAttemptFor (s : DState) (inc : Nat) : Bool :=
  s.attempts.any (fun a => a.incident_id = inc)

/-- A dispatch request for an incident.
Modelled from the spec: the Dispatcher is not in the source tree; the spec
says a dispatch creates one pending attempt per approved channel, and "a
second dispatch request for the same incident id that already has any sent or
in-flight attempt is a no-op" (idempotency key = incident id). -/
def dispatch (inc : Nat) (channels : List Channel) (s : DState) : DState :=
  if hasAttemptFor s inc then s
  else ⟨s.attempts ++ channels.dedup.map (mkPending inc)⟩

/-- How a send outcome transforms a pending attempt record.
Modelled from the spec: success marks it sent; a permanent error marks it
failed; a transient error increments attemptCount and keeps it pending until
the budget of maxAdditionalAttempts additional tries is exhausted. -/
def applyOutcome (o : SendOutcome) (a : Attempt) : Attempt :=
  match o with
  | SendOutcome.ok =>
    { a with status := AttemptStatus.sent, attemptCount := a.attemptCount + 1 }
  | SendOutcome.permanent =>
    { a with status := AttemptStatus.failed, attemptCount := a.attemptCount + 1 }
  | SendOutcome.transient =>
    if a.attemptCount + 1 > maxAdditionalAttempts then
      { a with status := AttemptStatus.failed, attemptCount := a.attemptCount + 1 }
    else
      { a with attemptCount := a.attemptCount + 1 }

/-- Recording one adapter send result against the audit log: only the pending
record of that (incident, channel) pair is touched; sent and failed records
are terminal and never mutated. -/
def recordSend (inc : Nat) (c : Channel) (o : SendOutcome) (s : DState) : DState :=
  ⟨s.attempts.map (fun a =>
    if a.incident_id = inc ∧ a.channel = c ∧ a.status = AttemptStatus.pending
    then applyOutcome o a else a)⟩

/-- One observable event of the dispatch subsystem: a dispatch request from
the ingestion path, or the result of one adapter send.  An interleaving of
concurrent duplicate dispatch calls is a trace containing both events. -/
inductive DEvent
  | dispatchReq (inc : Nat) (channels : List Channel)
  | sendResult (inc : Nat) (c : Channel) (o : SendOutcome)
deriving DecidableEq, Repr

/-- Applying one event to the dispatch state. -/
def applyEvent (s : DState) (e : DEvent) : DState :=
  match e with
  | DEvent.dispatchReq inc chs => dispatch inc chs s
  | DEvent.sendResult inc c o => recordSend inc c o s

/-- Running a trace of events from the initial state: the set of reachable
dispatch states is exactly the set of run results. -/
def run (tr : List DEvent) : DState :=
  tr.foldl applyEvent initState

/-- Observable events of one incident's dispatch completion, used to state the
markReported ordering: an attempt settling with a terminal status, the single
markReported(incidentId, reportedAt) write-back, or the operator-visible
alert on full failure. -/
inductive ReportEvent
  | attemptSettled (c : Channel) (st : AttemptStatus)
  | markReported (incId : Nat) (time : Nat)
  | operatorAlert (incId : Nat)
deriving DecidableEq, Repr

/-- The reported fields of an incident after dispatch, from the incidents
table columns reported_to_authorities (default false) and reported_at. -/
structure ReportedFields where
  reported_to_authorities : Bool
  reported_at : Option Nat
deriving DecidableEq, Repr

/-- Settling every channel attempt of one incident: each channel's retry loop
runs to its terminal state against that channel's adapter outcomes. -/
def settleChannels (channels : List Channel) (oracle : Channel → Nat → SendOutcome) :
    List (Channel × AttemptResult) :=
  channels.map (fun c => (c, runAttempt (oracle c)))

/-- Full dispatch of one incident, producing the event trace and the final
reported fields.
Modelled from the spec: the Dispatcher is not in the source tree; the spec
says that after all channel attempts settle, "if at least one attempt reached
sent, the Dispatcher calls the persistence collaborator to set
reportedToAuthorities = true, reportedAt = now", and that "full failure
across all channels leaves it unreported and logs an operator-visible
alert". -/
def dispatchIncident (incId : Nat) (channels : List Channel)
    (oracle : Channel → Nat → SendOutcome) (now : Nat) :
    List ReportEvent × ReportedFields :=
  if (settleChannels channels oracle).any
      (fun p => decide (p.2.status = AttemptStatus.sent)) then
    ((settleChannels channels oracle).map
        (fun p => ReportEvent.attemptSettled p.1 p.2.status)
      ++ [ReportEvent.markReported incId now], ⟨true, some now⟩)
  else
    ((settleChannels channels oracle).map
        (fun p => ReportEvent.attemptSettled p.1 p.2.status)
      ++ [ReportEvent.operatorAlert incId], ⟨false, none⟩)

/-- Whether a dispatch-completion event is the markReported write-back. -/
def isMarkReported : ReportEvent → Bool
  | ReportEvent.markReported _ _ => true
  | _ => false

/-- An observer connection identifier. -/
abbrev ConnId := Nat

/-- A feed identifier as used on the wire by the live observer protocol
(join_feed / leave_feed in WebSocketContext.js); the sentinel "global"
matches every broadcast. -/
abbrev FeedId := String

/-- The Subscription Registry, one entry per (connection, feed) subscription.
Modelled from the spec: the registry is not in the source tree (the client
side joins and leaves feeds through WebSocketContext.js); the spec says a
connection may hold many subscriptions and a feed many subscribers. -/
abbrev Registry := List (ConnId × FeedId)

/-- Connections subscribed to a feed, from the spec contract
subscribersFor(feedId) -> set of connectionIds. -/
def subscribersFor (reg : Registry) (f : FeedId) : List ConnId :=
  (reg.filter (fun p => p.2 = f)).map Prod.fst

/-- Subscribing a connection to a feed (the join_feed control message);
adding an existing subscription is a no-op. -/
def subscribe (c : ConnId) (f : FeedId) (reg : Registry) : Registry :=
  if (c, f) ∈ reg then reg else (c, f) :: reg

/-- Unsubscribing a connection from one feed (the leave_feed control
message). -/
def unsubscribe (c : ConnId) (f : FeedId) (reg : Registry) : Registry :=
  reg.filter (fun p => ¬(p.1 = c ∧ p.2 = f))

/-- Dropping a connection removes all of its subscriptions in one step.
Modelled from the spec: "dropConnection removes all subscriptions for that
connection atomically; it is idempotent". -/
def dropConnection (c : ConnId) (reg : Registry) : Registry :=
  reg.filter (fun p => p.1 ≠ c)

/-- The connections an incident broadcast reaches: the feed's subscribers
together with the subscribers of the sentinel "global".
Modelled from the spec: the Event Broadcaster is not in the source tree; the
spec says it resolves "subscribersFor(incident.feedId) unioned with
subscribersFor(\x22global\x22)". -/
def broadcastTargets (reg : Registry) (f : FeedId) : List ConnId :=
  (subscribersFor reg f ++ subscribersFor reg "global").dedup

/-- System state threaded through the ingestion entry point: the persisted
incident store shown by the dashboard, the dispatch audit state, and the log
of (connection, incident) deliveries pushed as incident_detected events. -/
structure PipelineState where
  incidents : List Incident
  dstate : DState
  deliveries : List (ConnId × Incident)
deriving DecidableEq, Repr

/-- The ingestion entry point onIncidentCreated.
Modelled from the spec: the backend pipeline is not in the source tree; the
spec says this sole entry point triggers both pathways: the incident is
persisted and shown regardless, the Evaluator gates only the creation of
notification attempts, and the incident_detected event is broadcast to the
observers resolved by the registry (thresholds gate notification only, not
storage or display). -/
def onIncidentCreated (inc : Incident) (cfg : SystemConfig) (reg : Registry)
    (s : PipelineState) : PipelineState :=
  let ev := shouldNotify inc cfg
  let s1 : PipelineState := { s with incidents := s.incidents ++ [inc] }
  let s2 : PipelineState :=
    if ev.qualifies then { s1 with dstate := dispatch inc.id ev.enabledChannels s1.dstate }
    else s1
  { s2 with deliveries :=
      s2.deliveries ++ (broadcastTargets reg (toString inc.feed_id)).map (fun c => (c, inc)) }

/-- Result of a channel test, from the spec contract test(target) -> Ok|Err
behind the /api/settings/test/{type} endpoint called by handleTest in
Settings.js. -/
inductive TestResult
  | ok
  | err
deriving DecidableEq, Repr

/-- The configuration UI's test-channel operation.
Modelled from the spec: the test endpoint backend is not in the source tree
(handleTest in Settings.js only POSTs to it and reports the outcome); the
spec says it validates settings "out-of-band from real incidents", reports
success or failure synchronously, "must not create NotificationAttempt
records" and must not mutate incident state.  It probes the adapter on the
channel's first configured destination and returns Err on a missing
destination (a ConfigurationError). -/
def testChannel (c : Channel) (cfg : SystemConfig)
    (adapter : Channel → String → TestResult) (s : PipelineState) :
    TestResult × PipelineState :=
  match recipientsFor cfg c with
  | [] => (TestResult.err, s)
  | t :: _ => (adapter c t, s)

/-- Slider minimum of the detection-threshold range inputs in Settings.js
(min="0.1"). -/
def sliderMin : ℚ := 1 / 10

/-- Slider maximum of the detection-threshold range inputs in Settings.js
(max="1"). -/
def sliderMax : ℚ := 1

/-- Slider step of the detection-threshold range inputs in Settings.js
(step="0.1"). -/
def sliderStep : ℚ := 1 / 10

/-- The values an HTML range input with the Settings.js attributes can
produce: min plus a whole number of steps, never exceeding max. -/
def sliderProducible (v : ℚ) : Prop :=
  ∃ k : ℕ, v = sliderMin + k * sliderStep ∧ v ≤ sliderMax

/-- The initial configuration snapshot held in the Settings.js useState call:
email and webhook notifications on, SMS off, thresholds 0.7 / 0.8 / 0.9 / 0.6,
and empty credential and destination strings throughout. -/
def defaultConfig : SystemConfig :=
  { notifications := ⟨true, false, true⟩
    detection := ⟨7 / 10, 8 / 10, 9 / 10, 6 / 10⟩
    email := some ⟨some "", some 587, some "", some "", some "", []⟩
    webhooks := some ⟨some "", some "", some "", some ""⟩
    sms := some ⟨some "", some "", some ""⟩ }

/-! ## Theorems -/

/-- Claim C1: shouldNotify returns qualifies = true exactly when the
incident's confidence is at least the threshold configured for its category
in config.detection, and returns qualifies = false whenever the category is
not one of the recognized categories (fails closed). -/
theorem C1_threshold_evaluator (inc : Incident) (cfg : SystemConfig) :
    ((shouldNotify inc cfg).qualifies = true ↔
      ∃ t, thresholdFor cfg.detection inc.incident_type = some t ∧
        t ≤ inc.confidence) ∧
    (thresholdFor cfg.detection inc.incident_type = none →
      (shouldNotify inc cfg).qualifies = false) := by
  constructor
  · cases h : thresholdFor cfg.detection inc.incident_type with
    | none => simp [shouldNotify, h]
    | some t => simp [shouldNotify, h]
  · intro h
    simp [shouldNotify, h]

/-- Witness for C1 at a concrete input: the category "loitering" is
unrecognized, and the Evaluator fails closed on it under the default
configuration. -/
theorem C1_threshold_evaluator_witness :
    (shouldNotify ⟨1, "loitering", none, "low", 1, 1, false, false, none⟩
      defaultConfig).qualifies = false :=
  (C1_threshold_evaluator ⟨1, "loitering", none, "low", 1, 1, false, false, none⟩
    defaultConfig).2 rfl

/-- Claim C9: enabledChannels is exactly the subset of {email, webhook, sms}
whose notifications flag is true and which has at least one usable
destination configured; a flagged channel with no destination, or with its
configuration sub-field absent entirely, is silently excluded (the evaluator
is a total function, so no error is raised). -/
theorem C9_enabled_channels (cfg : SystemConfig) (c : Channel) :
    (c ∈ enabledChannels cfg ↔
      channelFlag cfg c = true ∧ recipientsFor cfg c ≠ []) ∧
    (recipientsFor cfg c = [] → c ∉ enabledChannels cfg) := by
  have hmem : c ∈ [Channel.email, Channel.webhook, Channel.sms] := by
    cases c <;> simp
  have hiff : c ∈ enabledChannels cfg ↔
      channelFlag cfg c = true ∧ recipientsFor cfg c ≠ [] := by
    simp [enabledChannels, List.mem_filter, hmem]
  refine ⟨hiff, fun h hc => ?_⟩
  exact absurd (hiff.mp hc).2 (by simp [h])

/-- Witness for C9 at a concrete input: webhook notifications are flagged on
but the webhooks sub-field is absent, so the webhook channel is silently
excluded from enabledChannels. -/
theorem C9_enabled_channels_witness :
    Channel.webhook ∉ enabledChannels
      ⟨⟨false, false, true⟩, ⟨7 / 10, 8 / 10, 9 / 10, 6 / 10⟩, none, none, none⟩ :=
  (C9_enabled_channels
    ⟨⟨false, false, true⟩, ⟨7 / 10, 8 / 10, 9 / 10, 6 / 10⟩, none, none, none⟩
    Channel.webhook).2 rfl

/-- Claim C10: every detection-threshold value producible through the
Settings form's slider controls (range inputs with min 0.1, max 1, step 0.1)
lies in [0.1, 1.0] and is a whole multiple of 0.1; in particular the value
0.0 cannot be produced. -/
theorem C10_slider_values (v : ℚ) :
    (sliderProducible v →
      sliderMin ≤ v ∧ v ≤ sliderMax ∧ ∃ k : ℕ, v = (k + 1) / 10) ∧
    ¬ sliderProducible 0 := by
  constructor
  · rintro ⟨k, hv, hle⟩
    refine ⟨?_, hle, ⟨k, ?_⟩⟩
    · rw [hv]
      simp only [sliderMin, sliderStep]
      have hk : (0 : ℚ) ≤ (k : ℚ) * (1 / 10) := by positivity
      linarith
    · rw [hv]
      simp only [sliderMin, sliderStep]
      ring
  · rintro ⟨k, hv, -⟩
    have h0 : (0 : ℚ) < sliderMin + (k : ℚ) * sliderStep := by
      simp only [sliderMin, sliderStep]
      positivity
    rw [← hv] at h0
    exact lt_irrefl 0 h0

/-- Witness for C10 at a concrete input: 0.7 is producible by the slider
(six steps above the minimum) and lies in the stated lattice. -/
theorem C10_slider_values_witness :
    sliderMin ≤ 7 / 10 ∧ (7 : ℚ) / 10 ≤ sliderMax ∧
      ∃ k : ℕ, (7 : ℚ) / 10 = (k + 1) / 10 :=
  (C10_slider_values (7 / 10)).1
    ⟨6, by simp only [sliderMin, sliderStep]; norm_num,
      by simp only [sliderMax]; norm_num⟩

/-- The retry loop makes at most tryIdx + 1 + fuel sends counting from the
start of the whole attempt. -/
lemma runRetry_attemptCount (oracle : Nat → SendOutcome) :
    ∀ (fuel tryIdx : Nat) (ds : List Nat),
      (runRetry oracle fuel tryIdx ds).attemptCount ≤ tryIdx + 1 + fuel := by
  intro fuel
  induction fuel with
  | zero =>
    intro tryIdx ds
    cases h : oracle tryIdx <;> simp [runRetry, h]
  | succ f ih =>
    intro tryIdx ds
    cases h : oracle tryIdx <;> simp [runRetry, h]
    have := ih (tryIdx + 1) (ds ++ [retryDelay (tryIdx + 1)])
    omega

/-- The retry loop always settles: the final status is terminal. -/
lemma runRetry_terminal (oracle : Nat → SendOutcome) :
    ∀ (fuel tryIdx : Nat) (ds : List Nat),
      (runRetry oracle fuel tryIdx ds).status = AttemptStatus.sent ∨
        (runRetry oracle fuel tryIdx ds).status = AttemptStatus.failed := by
  intro fuel
  induction fuel with
  | zero =>
    intro tryIdx ds
    cases h : oracle tryIdx <;> simp [runRetry, h]
  | succ f ih =>
    intro tryIdx ds
    cases h : oracle tryIdx <;> simp [runRetry, h]
    exact ih (tryIdx + 1) (ds ++ [retryDelay (tryIdx + 1)])

/-- The delays recorded by the retry loop extend the accumulator by one
backoff value per retry actually taken, in order. -/
lemma runRetry_delays (oracle : Nat → SendOutcome) :
    ∀ (fuel tryIdx : Nat) (ds : List Nat),
      ∃ n, n ≤ fuel ∧ (runRetry oracle fuel tryIdx ds).delays
        = ds ++ (List.range n).map (fun j => retryDelay (tryIdx + 1 + j)) := by
  intro fuel
  induction fuel with
  | zero =>
    intro tryIdx ds
    refine ⟨0, Nat.le_refl 0, ?_⟩
    cases h : oracle tryIdx <;> simp [runRetry, h]
  | succ f ih =>
    intro tryIdx ds
    cases h : oracle tryIdx with
    | ok => exact ⟨0, Nat.zero_le _, by simp [runRetry, h]⟩
    | permanent => exact ⟨0, Nat.zero_le _, by simp [runRetry, h]⟩
    | transient =>
      obtain ⟨n, hn, hdel⟩ := ih (tryIdx + 1) (ds ++ [retryDelay (tryIdx + 1)])
      refine ⟨n + 1, by omega, ?_⟩
      have hstep : runRetry oracle (f + 1) tryIdx ds
          = runRetry oracle f (tryIdx + 1) (ds ++ [retryDelay (tryIdx + 1)]) := by
        simp [runRetry, h]
      have hfun : ((fun j => retryDelay (tryIdx + 1 + j)) ∘ Nat.succ)
          = fun j => retryDelay (tryIdx + 1 + 1 + j) := by
        funext j
        simp only [Function.comp_apply]
        congr 1
        omega
      rw [hstep, hdel, List.append_assoc]
      congr 1
      rw [List.range_succ_eq_map, List.map_cons, List.map_map, hfun]
      simp

/-- Claim C3: on transient failures the Dispatcher retries with exponential
backoff of base 2 seconds capped at 60 seconds, making at most 3 additional
attempts beyond the first; a permanent (non-transient) error on the first
send produces exactly one attempt record with status failed and no retry. -/
theorem C3_retry_policy (oracle : Nat → SendOutcome) :
    (runAttempt oracle).attemptCount ≤ 1 + maxAdditionalAttempts ∧
    (∀ d ∈ (runAttempt oracle).delays,
      ∃ k, 1 ≤ k ∧ k ≤ maxAdditionalAttempts ∧ d = min (2 ^ k) 60) ∧
    (oracle 0 = SendOutcome.transient →
      ∃ tail, (runAttempt oracle).delays = min (2 ^ 1) 60 :: tail) ∧
    (oracle 0 = SendOutcome.permanent →
      runAttempt oracle = ⟨AttemptStatus.failed, 1, []⟩) := by
  refine ⟨?_, ?_, ?_, ?_⟩
  · have := runRetry_attemptCount oracle maxAdditionalAttempts 0 []
    unfold runAttempt
    omega
  · intro d hd
    obtain ⟨n, hn, hdel⟩ := runRetry_delays oracle maxAdditionalAttempts 0 []
    unfold runAttempt at hd
    rw [hdel] at hd
    simp only [List.nil_append, List.mem_map, List.mem_range] at hd
    obtain ⟨j, hj, hdj⟩ := hd
    refine ⟨j + 1, by omega, by unfold maxAdditionalAttempts at hn ⊢; omega, ?_⟩
    have h01 : 0 + 1 + j = j + 1 := by omega
    rw [← hdj, retryDelay, h01]
  · intro h
    have hstep : runAttempt oracle = runRetry oracle 2 1 [retryDelay 1] := by
      show runRetry oracle (2 + 1) 0 [] = _
      simp [runRetry, h]
    obtain ⟨n, hn, hdel⟩ := runRetry_delays oracle 2 1 [retryDelay 1]
    refine ⟨(List.range n).map (fun j => retryDelay (1 + 1 + j)), ?_⟩
    rw [hstep, hdel]
    simp [retryDelay]
  · intro h
    show runRetry oracle (2 + 1) 0 [] = _
    simp [runRetry, h]

/-- Witness for C3 at a concrete input: an adapter that always reports a
permanent error yields exactly one attempt, status failed, no retry and no
backoff delay. -/
theorem C3_retry_policy_witness :
    runAttempt (fun _ => SendOutcome.permanent)
      = ⟨AttemptStatus.failed, 1, []⟩ :=
  (C3_retry_policy (fun _ => SendOutcome.permanent)).2.2.2 rfl

/-- One complete attempt always reaches a terminal status. -/
lemma runAttempt_terminal (oracle : Nat → SendOutcome) :
    (runAttempt oracle).status = AttemptStatus.sent ∨
      (runAttempt oracle).status = AttemptStatus.failed :=
  runRetry_terminal oracle maxAdditionalAttempts 0 []

/-- Claim C4: markReported is invoked at most once per incident and never
before every attempt has reached a terminal state (the trace ends with the
write-back or the alert, after all settle events, each of which is terminal);
if at least one attempt reached sent the incident ends reported with
reportedAt set, and if every attempt failed it stays unreported and an
operator-visible alert is logged. -/
theorem C4_mark_reported (incId : Nat) (channels : List Channel)
    (oracle : Channel → Nat → SendOutcome) (now : Nat) :
    ((dispatchIncident incId channels oracle now).1.countP isMarkReported ≤ 1) ∧
    (∃ evs lastE, (dispatchIncident incId channels oracle now).1 = evs ++ [lastE] ∧
      (∀ e ∈ evs, ∃ c st, e = ReportEvent.attemptSettled c st ∧
        (st = AttemptStatus.sent ∨ st = AttemptStatus.failed)) ∧
      (lastE = ReportEvent.markReported incId now ∨
        lastE = ReportEvent.operatorAlert incId)) ∧
    ((dispatchIncident incId channels oracle now).2.reported_to_authorities = true ↔
      ∃ c ∈ channels, (runAttempt (oracle c)).status = AttemptStatus.sent) ∧
    ((dispatchIncident incId channels oracle now).2.reported_to_authorities = true →
      (dispatchIncident incId channels oracle now).2.reported_at = some now ∧
      ReportEvent.markReported incId now ∈
        (dispatchIncident incId channels oracle now).1) ∧
    ((dispatchIncident incId channels oracle now).2.reported_to_authorities = false →
      (dispatchIncident incId channels oracle now).2.reported_at = none ∧
      ReportEvent.operatorAlert incId ∈
        (dispatchIncident incId channels oracle now).1) := by
  have hterm : ∀ c, (runAttempt (oracle c)).status = AttemptStatus.sent ∨
      (runAttempt (oracle c)).status = AttemptStatus.failed :=
    fun c => runAttempt_terminal (oracle c)
  have hcount : ((settleChannels channels oracle).map
      (fun p => ReportEvent.attemptSettled p.1 p.2.status)).countP isMarkReported
        = 0 := by
    rw [List.countP_eq_zero]
    intro e he
    obtain ⟨p, hp, rfl⟩ := List.mem_map.mp he
    simp [isMarkReported]
  have hsettled : ∀ e ∈ (settleChannels channels oracle).map
      (fun p => ReportEvent.attemptSettled p.1 p.2.status),
      ∃ c st, e = ReportEvent.attemptSettled c st ∧
        (st = AttemptStatus.sent ∨ st = AttemptStatus.failed) := by
    intro e he
    obtain ⟨p, hp, rfl⟩ := List.mem_map.mp he
    unfold settleChannels at hp
    obtain ⟨c, hc, rfl⟩ := List.mem_map.mp hp
    exact ⟨c, (runAttempt (oracle c)).status, rfl, hterm c⟩
  unfold dispatchIncident
  by_cases hany : ((settleChannels channels oracle).any
      (fun p => decide (p.2.status = AttemptStatus.sent))) = true
  · rw [if_pos hany]
    have hex : ∃ c ∈ channels, (runAttempt (oracle c)).status
        = AttemptStatus.sent := by
      simpa [settleChannels, List.any_eq_true] using hany
    refine ⟨?_, ?_, ?_, ?_, ?_⟩
    · rw [List.countP_append, hcount]
      simp [List.countP_cons, isMarkReported]
    · exact ⟨_, ReportEvent.markReported incId now, rfl, hsettled, Or.inl rfl⟩
    · exact ⟨fun _ => hex, fun _ => rfl⟩
    · exact fun _ => ⟨rfl, by simp⟩
    · intro hfalse
      simp at hfalse
  · rw [if_neg hany]
    have hnone : ∀ c ∈ channels, (runAttempt (oracle c)).status
        ≠ AttemptStatus.sent := by
      intro c hc hsent
      apply hany
      simp only [settleChannels, List.any_eq_true, List.mem_map,
        decide_eq_true_eq]
      exact ⟨(c, runAttempt (oracle c)), ⟨c, hc, rfl⟩, hsent⟩
    refine ⟨?_, ?_, ?_, ?_, ?_⟩
    · rw [List.countP_append, hcount]
      simp [List.countP_cons, isMarkReported]
    · exact ⟨_, ReportEvent.operatorAlert incId, rfl, hsettled, Or.inr rfl⟩
    · constructor
      · intro hfalse
        simp at hfalse
      · rintro ⟨c, hc, hsent⟩
        exact absurd hsent (hnone c hc)
    · intro htrue
      simp at htrue
    · exact fun _ => ⟨rfl, by simp⟩

/-- Witness for C4 at a concrete input: one webhook channel whose adapter
succeeds immediately; the incident ends reported at the given time and the
write-back event is in the trace. -/
theorem C4_mark_reported_witness :
    (dispatchIncident 1 [Channel.webhook] (fun _ _ => SendOutcome.ok) 5).2.reported_at
        = some 5 ∧
      ReportEvent.markReported 1 5 ∈
        (dispatchIncident 1 [Channel.webhook] (fun _ _ => SendOutcome.ok) 5).1 :=
  (C4_mark_reported 1 [Channel.webhook] (fun _ _ => SendOutcome.ok) 5).2.2.2.1
    (by decide)

/-- Every dispatch step preserves duplicate-freedom of the (incident,
channel) audit keys: a dispatch request appends fresh keys only when the
incident has no attempt yet, and recording a send result rewrites a record
in place without changing its key. -/
lemma applyEvent_keys_nodup (s : DState) (e : DEvent)
    (h : (s.attempts.map Attempt.key).Nodup) :
    ((applyEvent s e).attempts.map Attempt.key).Nodup := by
  cases e with
  | dispatchReq inc chs =>
    simp only [applyEvent, dispatch]
    by_cases hh : hasAttemptFor s inc = true
    · rw [if_pos hh]
      exact h
    · rw [if_neg hh]
      simp only [List.map_append, List.map_map]
      have hkey : (Attempt.key ∘ mkPending inc) = fun c => (inc, c) := rfl
      refine List.Nodup.append h ?_ ?_
      · rw [hkey]
        exact chs.nodup_dedup.map (fun a b hab => (Prod.mk.injEq _ _ _ _).mp hab |>.2)
      · rw [hkey]
        refine List.disjoint_left.mpr ?_
        intro k hk hknew
        obtain ⟨a, ha, rfl⟩ := List.mem_map.mp hk
        obtain ⟨c, -, hc⟩ := List.mem_map.mp hknew
        have hne : a.incident_id ≠ inc := by
          intro heq
          exact hh (List.any_eq_true.mpr ⟨a, ha, by simp [heq]⟩)
        exact hne (congrArg Prod.fst hc.symm)
  | sendResult inc c o =>
    simp only [applyEvent, recordSend]
    rw [List.map_map]
    have hkeep : ∀ a ∈ s.attempts, (Attempt.key ∘ fun a =>
        if a.incident_id = inc ∧ a.channel = c ∧ a.status = AttemptStatus.pending
        then applyOutcome o a else a) a = Attempt.key a := by
      intro a _
      simp only [Function.comp_apply]
      split
      · cases o with
        | ok => rfl
        | permanent => rfl
        | transient =>
          simp only [applyOutcome]
          split <;> rfl
      · rfl
    rw [List.map_congr_left hkeep]
    exact h

/-- A record that has reached status sent is preserved unchanged by every
further dispatch step. -/
lemma applyEvent_sent_mem (s : DState) (e : DEvent) (a : Attempt)
    (ha : a ∈ s.attempts) (hs : a.status = AttemptStatus.sent) :
    a ∈ (applyEvent s e).attempts := by
  cases e with
  | dispatchReq inc chs =>
    simp only [applyEvent, dispatch]
    split
    · exact ha
    · exact List.mem_append_left _ ha
  | sendResult inc c o =>
    simp only [applyEvent, recordSend]
    have hfix : (if a.incident_id = inc ∧ a.channel = c ∧
        a.status = AttemptStatus.pending then applyOutcome o a else a) = a := by
      rw [if_neg]
      rintro ⟨-, -, hp⟩
      rw [hs] at hp
      exact AttemptStatus.noConfusion hp
    have hm := List.mem_map_of_mem (fun a =>
      if a.incident_id = inc ∧ a.channel = c ∧ a.status = AttemptStatus.pending
      then applyOutcome o a else a) ha
    simpa [hfix] using hm

/-- Folding a trace of events preserves any property preserved by single
steps. -/
lemma foldl_preserve (P : DState → Prop)
    (hstep : ∀ s e, P s → P (applyEvent s e)) :
    ∀ (tr : List DEvent) (s : DState), P s → P (tr.foldl applyEvent s) := by
  intro tr
  induction tr with
  | nil => exact fun s h => h
  | cons e t ih => exact fun s h => ih _ (hstep s e h)

/-- In every reachable dispatch state the audit keys are duplicate-free:
there is at most one attempt record per (incident, channel) pair. -/
lemma run_keys_nodup (tr : List DEvent) :
    ((run tr).attempts.map Attempt.key).Nodup :=
  foldl_preserve (fun s => (s.attempts.map Attempt.key).Nodup)
    applyEvent_keys_nodup tr initState (by simp [initState])

/-- A sent record persists unchanged through every extension of the trace. -/
lemma run_sent_persists (tr rest : List DEvent) (a : Attempt)
    (ha : a ∈ (run tr).attempts) (hs : a.status = AttemptStatus.sent) :
    a ∈ (run (tr ++ rest)).attempts := by
  rw [run, List.foldl_append]
  exact foldl_preserve (fun s => a ∈ s.attempts)
    (fun s e h => applyEvent_sent_mem s e a h hs) rest (run tr) ha

/-- In a list whose audit keys are duplicate-free, any predicate that pins
the key down selects at most one record. -/
lemma length_filter_le_one_of_key {p : Attempt → Bool} {l : List Attempt}
    (h : (l.map Attempt.key).Nodup) (k : Nat × Channel)
    (hp : ∀ b, p b = true → Attempt.key b = k) :
    (l.filter p).length ≤ 1 := by
  induction l with
  | nil => simp
  | cons a t ih =>
    rw [List.map_cons, List.nodup_cons] at h
    by_cases hpa : p a = true
    · rw [List.filter_cons_of_pos hpa]
      simp only [List.length_cons]
      have hnil : (t.filter p).length = 0 := by
        rw [List.length_eq_zero, List.filter_eq_nil_iff]
        intro b hb hpb
        refine h.1 ?_
        rw [hp a hpa, ← hp b hpb]
        exact List.mem_map_of_mem Attempt.key hb
      omega
    · rw [List.filter_cons_of_neg hpa]
      exact ih h.2

/-- A dispatch request for an incident that already has an attempt record is
a no-op on the state. -/
lemma dispatch_noop (inc : Nat) (chs : List Channel) (s : DState)
    (h : hasAttemptFor s inc = true) : dispatch inc chs s = s := by
  simp [dispatch, h]

/-- Claim C2: in every reachable dispatch state, at most one attempt record
per (incident, channel) pair carries status sent; once a record is sent it
persists unchanged under any further events (no further attempts for that
pair); and a dispatch request for an incident that already has any sent or
in-flight attempt leaves the state exactly unchanged — interleavings of
concurrent duplicate dispatch calls are traces containing both requests. -/
theorem C2_at_most_once_sent (tr : List DEvent) (a : Attempt)
    (ha : a ∈ (run tr).attempts) (hs : a.status = AttemptStatus.sent) :
    (∀ inc c, ((run tr).attempts.filter (fun b =>
        decide (b.incident_id = inc ∧ b.channel = c ∧
          b.status = AttemptStatus.sent))).length ≤ 1) ∧
    (∀ rest, a ∈ (run (tr ++ rest)).attempts) ∧
    (∀ inc chs, hasAttemptFor (run tr) inc = true →
      run (tr ++ [DEvent.dispatchReq inc chs]) = run tr) := by
  refine ⟨?_, ?_, ?_⟩
  · intro inc c
    refine length_filter_le_one_of_key (run_keys_nodup tr) (inc, c) ?_
    intro b hb
    simp only [decide_eq_true_eq] at hb
    simp [Attempt.key, hb.1, hb.2.1]
  · exact fun rest => run_sent_persists tr rest a ha hs
  · intro inc chs h
    rw [run, List.foldl_append]
    exact dispatch_noop inc chs (run tr) h

/-- Witness for C2 at a concrete input: after a dispatch request for
incident 1 on the email channel followed by a successful send, the sent
record is present and persists under every further trace extension. -/
theorem C2_at_most_once_sent_witness :
    (⟨1, Channel.email, AttemptStatus.sent, 1⟩ : Attempt) ∈
      (run [DEvent.dispatchReq 1 [Channel.email],
        DEvent.sendResult 1 Channel.email SendOutcome.ok]).attempts ∧
    ∀ rest, (⟨1, Channel.email, AttemptStatus.sent, 1⟩ : Attempt) ∈
      (run ([DEvent.dispatchReq 1 [Channel.email],
        DEvent.sendResult 1 Channel.email SendOutcome.ok] ++ rest)).attempts :=
  ⟨by decide,
    (C2_at_most_once_sent
      [DEvent.dispatchReq 1 [Channel.email],
        DEvent.sendResult 1 Channel.email SendOutcome.ok]
      ⟨1, Channel.email, AttemptStatus.sent, 1⟩ (by decide) rfl).2.1⟩

/-- Claim C5: an incident whose confidence is strictly below its category's
configured threshold produces no notification attempt (the dispatch state is
untouched), yet it is still persisted into the incident store shown by the
dashboard and still delivered to every dashboard observer resolved for its
feed. -/
theorem C5_threshold_gates_notification_only (inc : Incident)
    (cfg : SystemConfig) (reg : Registry) (s : PipelineState) (t : ℚ)
    (ht : thresholdFor cfg.detection inc.incident_type = some t)
    (hlt : inc.confidence < t) :
    (onIncidentCreated inc cfg reg s).dstate = s.dstate ∧
    inc ∈ (onIncidentCreated inc cfg reg s).incidents ∧
    ∀ c ∈ broadcastTargets reg (toString inc.feed_id),
      (c, inc) ∈ (onIncidentCreated inc cfg reg s).deliveries := by
  have hq : (shouldNotify inc cfg).qualifies = false := by
    simp only [shouldNotify, ht, decide_eq_false_iff_not, not_le]
    exact hlt
  refine ⟨?_, ?_, ?_⟩
  · simp [onIncidentCreated, hq]
  · simp [onIncidentCreated, hq]
  · intro c hc
    simp only [onIncidentCreated, hq, Bool.false_eq_true, if_false,
      List.mem_append, List.mem_map]
    exact Or.inr ⟨c, hc, rfl⟩

/-- Witness for C5 at the spec's scenario: a traffic_violation incident with
confidence 0.5 against the default threshold 0.7, with one observer
subscribed to its feed. -/
theorem C5_threshold_gates_notification_only_witness :
    (onIncidentCreated
        ⟨10, "traffic_violation", none, "medium", 1 / 2, 42, false, false, none⟩
        defaultConfig [(7, "42")] ⟨[], initState, []⟩).dstate
      = (⟨[], initState, []⟩ : PipelineState).dstate ∧
    (⟨10, "traffic_violation", none, "medium", 1 / 2, 42, false, false, none⟩
        : Incident) ∈
      (onIncidentCreated
        ⟨10, "traffic_violation", none, "medium", 1 / 2, 42, false, false, none⟩
        defaultConfig [(7, "42")] ⟨[], initState, []⟩).incidents ∧
    ∀ c ∈ broadcastTargets [(7, "42")] (toString (42 : Nat)),
      (c, (⟨10, "traffic_violation", none, "medium", 1 / 2, 42, false, false,
        none⟩ : Incident)) ∈
        (onIncidentCreated
          ⟨10, "traffic_violation", none, "medium", 1 / 2, 42, false, false, none⟩
          defaultConfig [(7, "42")] ⟨[], initState, []⟩).deliveries :=
  C5_threshold_gates_notification_only
    ⟨10, "traffic_violation", none, "medium", 1 / 2, 42, false, false, none⟩
    defaultConfig [(7, "42")] ⟨[], initState, []⟩ (7 / 10) rfl (by norm_num)

/-- Claim C6: a broadcast for a feed reaches exactly the connections
subscribed to that feed together with those subscribed to the sentinel
"global": membership in the broadcast target set is equivalent to holding
one of those two subscriptions. -/
theorem C6_broadcast_scope (reg : Registry) (f : FeedId) (c : ConnId) :
    c ∈ broadcastTargets reg f ↔ ((c, f) ∈ reg ∨ (c, "global") ∈ reg) := by
  simp only [broadcastTargets, List.mem_dedup, List.mem_append, subscribersFor,
    List.mem_map, List.mem_filter, decide_eq_true_eq]
  constructor
  · rintro (⟨⟨p1, p2⟩, ⟨hp, rfl⟩, rfl⟩ | ⟨⟨p1, p2⟩, ⟨hp, rfl⟩, rfl⟩)
    · exact Or.inl hp
    · exact Or.inr hp
  · rintro (h | h)
    · exact Or.inl ⟨(c, f), ⟨h, rfl⟩, rfl⟩
    · exact Or.inr ⟨(c, "global"), ⟨h, rfl⟩, rfl⟩

/-- Claim C7: dropConnection removes every subscription of the connection in
one step: afterwards the connection is absent from subscribersFor for every
feed and from every broadcast target set; dropping twice equals dropping
once; and dropping a connection that holds no subscription leaves the
registry exactly unchanged (a no-op, not an error). -/
theorem C7_drop_connection (reg : Registry) (c : ConnId) :
    (∀ f, c ∉ subscribersFor (dropConnection c reg) f) ∧
    (∀ f, c ∉ broadcastTargets (dropConnection c reg) f) ∧
    dropConnection c (dropConnection c reg) = dropConnection c reg ∧
    ((∀ p ∈ reg, p.1 ≠ c) → dropConnection c reg = reg) := by
  have hnotin : ∀ f, c ∉ subscribersFor (dropConnection c reg) f := by
    intro f hc
    simp only [subscribersFor, dropConnection, List.mem_map, List.mem_filter,
      decide_eq_true_eq] at hc
    obtain ⟨p, ⟨⟨-, hne⟩, -⟩, h1⟩ := hc
    exact hne (by simpa using h1)
  refine ⟨hnotin, ?_, ?_, ?_⟩
  · intro f hc
    rw [broadcastTargets, List.mem_dedup, List.mem_append] at hc
    rcases hc with hc | hc
    · exact hnotin f hc
    · exact hnotin "global" hc
  · rw [dropConnection, List.filter_eq_self]
    intro p hp
    unfold dropConnection at hp
    exact (List.mem_filter.mp hp).2
  · intro h
    rw [dropConnection, List.filter_eq_self]
    intro p hp
    simpa using h p hp

/-- Witness for C7 at a concrete input: connection 1 holds no subscription in
a registry containing only connection 2, so dropping it is a no-op. -/
theorem C7_drop_connection_witness :
    dropConnection 1 [(2, "42")] = [(2, "42")] :=
  (C7_drop_connection [(2, "42")] 1).2.2.2 (by decide)

/-- Claim C8: the configuration UI's test-channel operation returns its
Ok/Err outcome synchronously as a value and leaves all persisted state
unchanged: same incident store, same notification attempt log, same delivery
log. -/
theorem C8_test_channel_pure (c : Channel) (cfg : SystemConfig)
    (adapter : Channel → String → TestResult) (s : PipelineState) :
    (testChannel c cfg adapter s).2 = s ∧
    (testChannel c cfg adapter s).2.dstate.attempts = s.dstate.attempts ∧
    (testChannel c cfg adapter s).2.incidents = s.incidents ∧
    (testChannel c cfg adapter s).2.deliveries = s.deliveries := by
  have h : (testChannel c cfg adapter s).2 = s := by
    unfold testChannel
    cases recipientsFor cfg c <;> rfl
  exact ⟨h, by rw [h], by rw [h], by rw [h]⟩

end CctvMonitor
